import Mathlib

/-!
Shallow embedding of the request execution engine of the datadog-query-cli
repository (src/datadog.rs, src/app_error.rs, src/main.rs), together with
proofs about the retry loop, backoff computation, status classification,
response decoding, body truncation, URL resolution, sort mapping, the error
presenter and the metrics time-window guard.

Machine integers of the source (u32, u64) are modelled as `Nat` with explicit
saturation at `u64_max` where the source saturates. Network transport and the
external JSON / URL parsers (reqwest, serde_json, url) are abstracted as
function parameters; everything written in the repository itself is
translated directly.
-/

/-- `u64::MAX`, the saturation bound of the source's `u64` arithmetic. -/
def u64_max : Nat := 2 ^ 64 - 1

/-- JSON values as produced by the engine (called `JsonValue` in the spec's
data model; objects keep their field order as a plain association list). -/
inductive JsonValue where
  | null : JsonValue
  | bool (b : Bool) : JsonValue
  | num (n : Int) : JsonValue
  | str (s : String) : JsonValue
  | arr (elements : List JsonValue) : JsonValue
  | obj (fields : List (String × JsonValue)) : JsonValue

/-- `RetryConfig` from src/config.rs (u32 `max_retries`, u64 backoff fields). -/
structure RetryConfig where
  max_retries : Nat
  backoff_ms : Nat
  max_backoff_ms : Nat
  retry_rate_limit : Bool
deriving DecidableEq

/-- The part of `DatadogClient` (src/datadog.rs) the claims depend on:
the base URL, the retry policy, and the external URL parser `Url::parse`
abstracted as a success predicate `url_ok` on the string being parsed. -/
structure ClientConfig where
  base_url : String
  retry : RetryConfig
  url_ok : String → Bool

/-- `DatadogError` from src/datadog.rs. -/
inductive DatadogError where
  | invalid_request (message : String) : DatadogError
  | auth (status : Nat) (body : String) : DatadogError
  | rate_limited (body : String) (retry_after_ms : Option Nat) : DatadogError
  | retryable (status : Option Nat) (message : String) : DatadogError
  | api (status : Nat) (body : String) : DatadogError
deriving DecidableEq

/-- Outcome of reading the response body (`response.text().await`). -/
inductive BodyOutcome where
  | ok (text : String) : BodyOutcome
  | read_err (message : String) : BodyOutcome
deriving DecidableEq

/-- What one transport invocation (`request.send().await` plus header
inspection) yields: a send error (retryable or not, per
`is_retryable_transport_error`), or a response with an HTTP status, the raw
`Retry-After` header value if present, and a body outcome. -/
inductive TryResult where
  | send_err (retryable : Bool) (message : String) : TryResult
  | response (status : Nat) (retry_after : Option String) (body : BodyOutcome) : TryResult
deriving DecidableEq

/-- Result of executing one logical request: the final outcome (`none`
models a Rust panic), the backoff sleeps performed in order (ms), and the
number of transport invocations consumed. -/
structure ExecResult where
  result : Option (Except DatadogError JsonValue)
  sleeps : List Nat
  tries : Nat

/-- Rust `str::starts_with` on string literals (executable prefix test on
the character lists). -/
def starts_with (s pre : String) : Bool :=
  List.isPrefixOf pre.data s.data

/-- Rust `str::trim`: remove leading and trailing whitespace characters. -/
def rust_trim (s : String) : String :=
  String.mk (((s.data.dropWhile Char.isWhitespace).reverse.dropWhile
    Char.isWhitespace).reverse)

/-- Rust `str::parse::<u64>`: optional leading `+`, then one or more ASCII
digits, rejecting overflow past `u64::MAX`. -/
def parse_u64 (s : String) : Option Nat :=
  let t := if starts_with s "+" then s.drop 1 else s
  if t.isEmpty then none
  else if t.data.all Char.isDigit then
    let n := t.data.foldl (fun acc c => acc * 10 + (c.toNat - 48)) 0
    if n ≤ u64_max then some n else none
  else none

/-- `parse_retry_after_ms` from src/datadog.rs: take the `Retry-After`
header value, trim it, parse as u64 seconds, saturating-multiply by 1000. -/
def parse_retry_after_ms (header : Option String) : Option Nat :=
  match header with
  | none => none
  | some value =>
    match parse_u64 (rust_trim value) with
    | none => none
    | some seconds => some (min (seconds * 1000) u64_max)

/-- `DatadogClient::backoff_ms` from src/datadog.rs:
`1u64 << attempt.min(16)` then `backoff_ms.saturating_mul(..).min(max_backoff_ms)`. -/
def backoff_ms (retry : RetryConfig) (attempt : Nat) : Nat :=
  let multiplier := 2 ^ min attempt 16
  min (min (retry.backoff_ms * multiplier) u64_max) retry.max_backoff_ms

/-- `StatusCode::is_success`: 200 ≤ status ≤ 299. -/
def is_success (status : Nat) : Bool :=
  decide (200 ≤ status ∧ status ≤ 299)

/-- `is_retryable_status` from src/datadog.rs: 408 or any 5xx. -/
def is_retryable_status (status : Nat) : Bool :=
  status == 408 || decide (500 ≤ status ∧ status ≤ 599)

/-- Take exactly `n` bytes off the front of a character list, returning
`none` when `n` does not land on a character boundary (or past the end) —
the situation in which Rust's `&text[..n]` byte slicing panics. -/
def take_bytes : List Char → Nat → Option (List Char)
  | _, 0 => some []
  | [], _ + 1 => none
  | c :: cs, n + 1 =>
    if c.utf8Size ≤ n + 1 then
      (take_bytes cs (n + 1 - c.utf8Size)).map (fun l => c :: l)
    else none

/-- `truncate_for_error` from src/datadog.rs. `text.len()` is the UTF-8 byte
length; `&text[..2048]` is byte slicing, which panics (modelled as `none`)
when byte 2048 is not a character boundary. -/
def truncate_for_error (text : String) : Option String :=
  if text.utf8ByteSize ≤ 2048 then some text
  else
    match take_bytes text.data 2048 with
    | some cs => some (String.mk cs ++ "...(truncated)")
    | none => none

/-- `DatadogClient::resolve_url` from src/datadog.rs, with the external
`Url::parse` abstracted as `url_ok`; the `Err` payload is the message that
`DatadogError::InvalidRequest` will carry. -/
def resolve_url (url_ok : String → Bool) (base_url path : String) :
    Except String String :=
  if starts_with path "http://" || starts_with path "https://" then
    if url_ok path then Except.ok path else Except.error "Invalid raw URL."
  else
    let normalized_path := if starts_with path "/" then path else "/" ++ path
    let url := base_url ++ normalized_path
    if url_ok url then Except.ok url
    else Except.error ("Invalid Datadog URL built from `" ++ url ++ "`")

/-- Record that one more transport invocation happened and that the given
backoff sleep was performed before the rest of the execution `r`. -/
def add_try (delay : Nat) (r : ExecResult) : ExecResult :=
  { result := r.result, sleeps := delay :: r.sleeps, tries := r.tries + 1 }

/-- The retry loop of `DatadogClient::send_json` (src/datadog.rs lines
201-326) after the URL has been resolved. `resp i` is what the i-th
transport invocation yields, `parse` is the external `serde_json::from_str`.
The attempt counter is 0-based and a retry is only taken while
`attempt < max_retries`, exactly as in the source; a `none` result models a
Rust panic (which the body truncation can raise). -/
def send_loop (retry : RetryConfig) (parse : String → Option JsonValue)
    (resp : Nat → TryResult) (attempt : Nat) : ExecResult :=
  match resp attempt with
  | TryResult.send_err r msg =>
    if h : r = true ∧ attempt < retry.max_retries then
      add_try (backoff_ms retry attempt) (send_loop retry parse resp (attempt + 1))
    else if r then
      { result := some (Except.error (DatadogError.retryable none
          ("Datadog request failed after " ++ toString (attempt + 1) ++
            " attempt(s): " ++ msg))),
        sleeps := [], tries := 1 }
    else
      { result := some (Except.error (DatadogError.invalid_request
          ("Datadog request setup failed: " ++ msg))),
        sleeps := [], tries := 1 }
  | TryResult.response status retry_after body_out =>
    let retry_after_ms := parse_retry_after_ms retry_after
    match body_out with
    | BodyOutcome.read_err msg =>
      if h : attempt < retry.max_retries then
        add_try (backoff_ms retry attempt) (send_loop retry parse resp (attempt + 1))
      else
        { result := some (Except.error (DatadogError.retryable (some status)
            ("Failed to read Datadog response after " ++ toString (attempt + 1) ++
              " attempt(s): " ++ msg))),
          sleeps := [], tries := 1 }
    | BodyOutcome.ok text =>
      if is_success status then
        if (rust_trim text).isEmpty then
          { result := some (Except.ok (JsonValue.obj [])), sleeps := [], tries := 1 }
        else
          match parse text with
          | some value => { result := some (Except.ok value), sleeps := [], tries := 1 }
          | none =>
            { result := some (Except.ok (JsonValue.obj [("raw", JsonValue.str text)])),
              sleeps := [], tries := 1 }
      else
        match truncate_for_error text with
        | none => { result := none, sleeps := [], tries := 1 }
        | some body =>
          if status = 401 ∨ status = 403 then
            { result := some (Except.error (DatadogError.auth status body)),
              sleeps := [], tries := 1 }
          else if status = 429 then
            if h : retry.retry_rate_limit = true ∧ attempt < retry.max_retries then
              add_try (retry_after_ms.getD (backoff_ms retry attempt))
                (send_loop retry parse resp (attempt + 1))
            else
              { result := some (Except.error (DatadogError.rate_limited body retry_after_ms)),
                sleeps := [], tries := 1 }
          else if is_retryable_status status then
            if h : attempt < retry.max_retries then
              add_try (backoff_ms retry attempt) (send_loop retry parse resp (attempt + 1))
            else
              { result := some (Except.error (DatadogError.retryable (some status)
                  ("Datadog API returned " ++ toString status ++ " after " ++
                    toString (attempt + 1) ++ " attempt(s): " ++ body))),
                sleeps := [], tries := 1 }
          else
            { result := some (Except.error (DatadogError.api status body)),
              sleeps := [], tries := 1 }
termination_by retry.max_retries - attempt
decreasing_by all_goals (simp_wf; omega)

/-- `DatadogClient::send_json`: resolve the URL (an unparsable URL is an
`InvalidRequest` with zero transport invocations), then run the retry loop
from attempt 0. The method, query parameters and JSON body are carried so
that the per-subcommand wrappers pin down the exact request they build; the
abstract transport `resp` subsumes their effect on the wire. -/
def send_json (c : ClientConfig) (parse : String → Option JsonValue)
    (resp : Nat → TryResult) (method path : String)
    (params : Option (List (String × String))) (body : Option JsonValue) : ExecResult :=
  match resolve_url c.url_ok c.base_url path with
  | Except.error e =>
    { result := some (Except.error (DatadogError.invalid_request e)), sleeps := [], tries := 0 }
  | Except.ok _ => send_loop c.retry parse resp 0

/-- Rust `str::to_ascii_lowercase`: map only the ASCII letters A-Z. -/
def ascii_lowercase (s : String) : String :=
  String.mk (s.data.map
    (fun c => if 65 ≤ c.toNat ∧ c.toNat ≤ 90 then Char.ofNat (c.toNat + 32) else c))

/-- `LogsQuery` from src/datadog.rs (`from`/`to` renamed, being Lean
keywords; `limit` is a u32). -/
structure LogsQuery where
  query : String
  from_ : String
  to_ : String
  limit : Nat
  sort : String
  cursor : Option String

/-- The JSON body built by `DatadogClient::query_logs` for a given resolved
sort string: `{"filter":{"query","from","to"},"sort":...,"page":{"limit","cursor"?}}`,
the `cursor` key added to `page` only when present. -/
def logs_request_body (q : LogsQuery) (sort : String) : JsonValue :=
  JsonValue.obj
    [("filter", JsonValue.obj
        [("query", JsonValue.str q.query),
         ("from", JsonValue.str q.from_),
         ("to", JsonValue.str q.to_)]),
     ("sort", JsonValue.str sort),
     ("page", match q.cursor with
       | none => JsonValue.obj [("limit", JsonValue.num q.limit)]
       | some cur =>
         JsonValue.obj [("limit", JsonValue.num q.limit), ("cursor", JsonValue.str cur)])]

/-- `DatadogClient::query_logs` from src/datadog.rs: lowercase the sort,
map `asc`/`desc` to `timestamp`/`-timestamp`, reject anything else before
any transport invocation, otherwise POST the logs search body. -/
def query_logs (c : ClientConfig) (parse : String → Option JsonValue)
    (resp : Nat → TryResult) (q : LogsQuery) : ExecResult :=
  match ascii_lowercase q.sort with
  | "asc" =>
    send_json c parse resp "POST" "/api/v2/logs/events/search" none
      (some (logs_request_body q "timestamp"))
  | "desc" =>
    send_json c parse resp "POST" "/api/v2/logs/events/search" none
      (some (logs_request_body q "-timestamp"))
  | other =>
    { result := some (Except.error (DatadogError.invalid_request
        ("Invalid sort `" ++ other ++ "`. Use `asc` or `desc` for logs queries."))),
      sleeps := [], tries := 0 }

/-- The query parameters built by `DatadogClient::query_events` for a given
resolved sort string. -/
def events_params (query : Option String) (from_ to_ : String) (limit : Nat)
    (sort : String) : List (String × String) :=
  [("filter[from]", from_), ("filter[to]", to_),
   ("page[limit]", toString limit), ("sort", sort)] ++
  (match query with
   | some q => [("filter[query]", q)]
   | none => [])

/-- `DatadogClient::query_events` from src/datadog.rs: same sort mapping as
logs, then GET `/api/v2/events` with the events parameters. -/
def query_events (c : ClientConfig) (parse : String → Option JsonValue)
    (resp : Nat → TryResult) (query : Option String) (from_ to_ : String)
    (limit : Nat) (sort : String) : ExecResult :=
  match ascii_lowercase sort with
  | "asc" =>
    send_json c parse resp "GET" "/api/v2/events"
      (some (events_params query from_ to_ limit "timestamp")) none
  | "desc" =>
    send_json c parse resp "GET" "/api/v2/events"
      (some (events_params query from_ to_ limit "-timestamp")) none
  | other =>
    { result := some (Except.error (DatadogError.invalid_request
        ("Invalid sort `" ++ other ++ "`. Use `asc` or `desc` for events queries."))),
      sleeps := [], tries := 0 }

/-- `DatadogClient::query_metrics` from src/datadog.rs: GET `/api/v1/query`
with `query`, `from`, `to` (i64 unix seconds rendered as decimal strings). -/
def query_metrics (c : ClientConfig) (parse : String → Option JsonValue)
    (resp : Nat → TryResult) (query : String) (from_ to_ : Int) : ExecResult :=
  send_json c parse resp "GET" "/api/v1/query"
    (some [("query", query), ("from", toString from_), ("to", toString to_)]) none

/-- `AppError` from src/app_error.rs. -/
inductive AppError where
  | usage (message : String) : AppError
  | auth (status : Nat) (message : String) : AppError
  | rate_limited (message : String) (retry_after_ms : Option Nat) : AppError
  | upstream (status : Option Nat) (message : String) : AppError
  | api (status : Nat) (message : String) : AppError
  | internal (message : String) : AppError
deriving DecidableEq

/-- `AppError::exit_code` from src/app_error.rs. -/
def AppError.exit_code : AppError → Int
  | AppError.usage _ => 2
  | AppError.auth _ _ => 3
  | AppError.rate_limited _ _ => 4
  | AppError.upstream _ _ => 5
  | AppError.api _ _ => 6
  | AppError.internal _ => 1

/-- serde_json serialization of an `Option<u64>` field: `null` for `None`. -/
def json_opt_nat : Option Nat → JsonValue
  | none => JsonValue.null
  | some n => JsonValue.num n

/-- `AppError::to_json` from src/app_error.rs: the structured error
envelope `{"error": {...}}`, field for field. -/
def AppError.to_json (e : AppError) : JsonValue :=
  match e with
  | AppError.usage message =>
    JsonValue.obj [("error", JsonValue.obj
      [("category", JsonValue.str "usage"),
       ("exit_code", JsonValue.num e.exit_code),
       ("retryable", JsonValue.bool false),
       ("message", JsonValue.str message)])]
  | AppError.auth status message =>
    JsonValue.obj [("error", JsonValue.obj
      [("category", JsonValue.str "auth"),
       ("exit_code", JsonValue.num e.exit_code),
       ("status", JsonValue.num status),
       ("retryable", JsonValue.bool false),
       ("message", JsonValue.str message)])]
  | AppError.rate_limited message retry_after_ms =>
    JsonValue.obj [("error", JsonValue.obj
      [("category", JsonValue.str "rate_limit"),
       ("exit_code", JsonValue.num e.exit_code),
       ("status", JsonValue.num 429),
       ("retryable", JsonValue.bool false),
       ("retry_after_ms", json_opt_nat retry_after_ms),
       ("message", JsonValue.str message)])]
  | AppError.upstream status message =>
    JsonValue.obj [("error", JsonValue.obj
      [("category", JsonValue.str "upstream"),
       ("exit_code", JsonValue.num e.exit_code),
       ("status", json_opt_nat status),
       ("retryable", JsonValue.bool true),
       ("message", JsonValue.str message)])]
  | AppError.api status message =>
    JsonValue.obj [("error", JsonValue.obj
      [("category", JsonValue.str "api"),
       ("exit_code", JsonValue.num e.exit_code),
       ("status", JsonValue.num status),
       ("retryable", JsonValue.bool false),
       ("message", JsonValue.str message)])]
  | AppError.internal message =>
    JsonValue.obj [("error", JsonValue.obj
      [("category", JsonValue.str "internal"),
       ("exit_code", JsonValue.num e.exit_code),
       ("retryable", JsonValue.bool false),
       ("message", JsonValue.str message)])]

/-- `impl From<DatadogError> for AppError` from src/app_error.rs. -/
def app_error_of_datadog : DatadogError → AppError
  | DatadogError.invalid_request message => AppError.usage message
  | DatadogError.auth status body => AppError.auth status body
  | DatadogError.rate_limited body retry_after_ms =>
    AppError.rate_limited body retry_after_ms
  | DatadogError.retryable status message => AppError.upstream status message
  | DatadogError.api status body => AppError.api status body

/-- Field lookup in a JSON object association list (first match wins). -/
def json_lookup : List (String × JsonValue) → String → Option JsonValue
  | [], _ => none
  | (k, v) :: rest, key => if k = key then some v else json_lookup rest key

/-- Look a key up inside the `error` object of an `AppError` envelope. -/
def error_field (e : AppError) (key : String) : Option JsonValue :=
  match e.to_json with
  | JsonValue.obj [(_, JsonValue.obj fields)] => json_lookup fields key
  | _ => none

/-- An execution outcome lifted to the application level (`run` in
src/main.rs): `DatadogError` mapped through `AppError::from`. -/
structure AppExec where
  result : Option (Except AppError JsonValue)
  sleeps : List Nat
  tries : Nat

/-- Lift an engine execution to the application level. -/
def lift_app (r : ExecResult) : AppExec :=
  { result := r.result.map (Except.mapError app_error_of_datadog),
    sleeps := r.sleeps, tries := r.tries }

/-- The `Command::Metrics` arm of `run` (src/main.rs lines 59-76) after
both time expressions have been resolved to unix seconds: reject a window
with `to_unix <= from_unix` as a usage error before any request is built or
sent, otherwise execute the metrics query. -/
def run_metrics (c : ClientConfig) (parse : String → Option JsonValue)
    (resp : Nat → TryResult) (query : String) (from_unix to_unix : Int) : AppExec :=
  if to_unix ≤ from_unix then
    { result := some (Except.error (AppError.usage
        "Invalid metrics time window: `to` must be greater than `from`.")),
      sleeps := [], tries := 0 }
  else
    lift_app (query_metrics c parse resp query from_unix to_unix)

/-- A JSON parser stub that rejects every body. -/
def parse_none : String → Option JsonValue := fun _ => none

/-- A transport stub that always answers HTTP 200 with an empty body. -/
def resp_ok_empty : Nat → TryResult :=
  fun _ => TryResult.response 200 none (BodyOutcome.ok "")

/-- A client configuration whose URL parser accepts every string. -/
def client_w : ClientConfig :=
  { base_url := "https://api.datadoghq.com",
    retry := RetryConfig.mk 0 100 1000 true,
    url_ok := fun _ => true }

/-- A client configuration whose URL parser rejects every string. -/
def client_bad : ClientConfig :=
  { base_url := "https://api.datadoghq.com",
    retry := RetryConfig.mk 3 100 1000 true,
    url_ok := fun _ => false }

/-! ## Theorems -/

/-- C3: for every retry policy with `base_backoff_ms > 0` and
`max_backoff_ms ≥ base_backoff_ms` (both u64, hence `≤ u64_max`), the
computed backoff delay at 0-based attempt `a` equals
`min(base_backoff_ms * 2 ^ min(a, 16), max_backoff_ms)`; it is monotonically
non-decreasing in `a`, the first retry delay (`a = 0`) is exactly
`base_backoff_ms`, and the computation never overflows u64 (exponent capped
at 16, multiplication saturating, result bounded by `u64_max`). -/
theorem backoff_formula (retry : RetryConfig)
    (hpos : 0 < retry.backoff_ms)
    (hle : retry.backoff_ms ≤ retry.max_backoff_ms)
    (hword : retry.max_backoff_ms ≤ u64_max) :
    (∀ a, backoff_ms retry a =
      min (retry.backoff_ms * 2 ^ min a 16) retry.max_backoff_ms)
    ∧ (∀ a b, a ≤ b → backoff_ms retry a ≤ backoff_ms retry b)
    ∧ backoff_ms retry 0 = retry.backoff_ms
    ∧ (∀ a, backoff_ms retry a ≤ u64_max) := by
  have hform : ∀ a, backoff_ms retry a =
      min (retry.backoff_ms * 2 ^ min a 16) retry.max_backoff_ms := by
    intro a
    show min (min (retry.backoff_ms * 2 ^ min a 16) u64_max) retry.max_backoff_ms = _
    generalize retry.backoff_ms * 2 ^ min a 16 = x
    omega
  refine ⟨hform, ?_, ?_, ?_⟩
  · intro a b hab
    rw [hform a, hform b]
    refine min_le_min ?_ le_rfl
    exact Nat.mul_le_mul_left _ (Nat.pow_le_pow_right (by norm_num)
      (min_le_min hab le_rfl))
  · have h0 : min 0 16 = 0 := rfl
    rw [hform 0, h0, pow_zero, Nat.mul_one]
    exact min_eq_left hle
  · intro a
    rw [hform a]
    omega

/-- Witness for `backoff_formula` at the concrete policy
`max_retries = 3, base = 100 ms, cap = 1000 ms`. -/
theorem backoff_formula_witness :
    (0 < (RetryConfig.mk 3 100 1000 true).backoff_ms
      ∧ (RetryConfig.mk 3 100 1000 true).backoff_ms ≤
          (RetryConfig.mk 3 100 1000 true).max_backoff_ms
      ∧ (RetryConfig.mk 3 100 1000 true).max_backoff_ms ≤ u64_max)
    ∧ ((∀ a, backoff_ms (RetryConfig.mk 3 100 1000 true) a =
          min (100 * 2 ^ min a 16) 1000)
      ∧ (∀ a b, a ≤ b → backoff_ms (RetryConfig.mk 3 100 1000 true) a ≤
          backoff_ms (RetryConfig.mk 3 100 1000 true) b)
      ∧ backoff_ms (RetryConfig.mk 3 100 1000 true) 0 = 100
      ∧ (∀ a, backoff_ms (RetryConfig.mk 3 100 1000 true) a ≤ u64_max)) :=
  ⟨⟨by decide, by decide, by decide⟩,
    backoff_formula (RetryConfig.mk 3 100 1000 true) (by decide) (by decide) (by decide)⟩

/-- The UTF-8 byte length of `n` copies of a two-byte character is `2 * n`. -/
theorem utf8Len_replicate_e (n : Nat) :
    String.utf8Len (List.replicate n 'é') = 2 * n := by
  have hsz : ('é').utf8Size = 2 := by decide
  induction n with
  | zero => simp
  | succ k ih => simp [List.replicate_succ, hsz, ih]; omega

/-- Slicing an odd number of bytes off a run of two-byte characters never
lands on a character boundary, so `take_bytes` fails. -/
theorem take_bytes_replicate_e_odd :
    ∀ k n, 2 * k + 1 ≤ 2 * n →
      take_bytes (List.replicate n 'é') (2 * k + 1) = none := by
  have hsz : ('é').utf8Size = 2 := by decide
  intro k
  induction k with
  | zero =>
    intro n h
    match n, h with
    | n + 1, _ =>
      show take_bytes ('é' :: List.replicate n 'é') 1 = none
      rw [take_bytes, hsz]
      norm_num
  | succ j ih =>
    intro n h
    match n, h with
    | n + 1, h =>
      show take_bytes ('é' :: List.replicate n 'é') (2 * (j + 1) + 1) = none
      rw [take_bytes, hsz, if_pos (by omega)]
      have h3 : 2 * (j + 1) + 1 - 2 = 2 * j + 1 := by omega
      rw [h3, ih n (by omega)]
      rfl

/-- C6: code bug. Bodies of at most 2048 bytes are embedded unchanged and
longer bodies are truncated to their first 2048 bytes plus the
`...(truncated)` marker, but the truncation does NOT succeed for every
possible body string: `&text[..2048]` is Rust byte slicing, which panics
when byte 2048 falls inside a multi-byte UTF-8 character. The body made of
`'a'` followed by 1024 copies of the two-byte character `'é'` is 2049 bytes
long, strictly over the ceiling, yet its byte 2048 is not a character
boundary, so `truncate_for_error` panics (modelled as `none`) — contradicting
the spec's contract that the engine never panics on API-level failures. -/
theorem truncate_panics_on_char_boundary :
    2048 < (String.mk ('a' :: List.replicate 1024 'é')).utf8ByteSize
    ∧ truncate_for_error (String.mk ('a' :: List.replicate 1024 'é')) = none
    ∧ truncate_for_error "short body" = some "short body" := by
  have hsize : (String.mk ('a' :: List.replicate 1024 'é')).utf8ByteSize = 2049 := by
    have ha : ('a').utf8Size = 1 := by decide
    rw [String.utf8ByteSize_mk, String.utf8Len_cons, utf8Len_replicate_e, ha]
  refine ⟨by omega, ?_, by decide⟩
  rw [truncate_for_error, if_neg (by omega)]
  have htake : take_bytes ('a' :: List.replicate 1024 'é') 2048 = none := by
    have ha : ('a').utf8Size = 1 := by decide
    rw [take_bytes, ha, if_pos (by omega)]
    have h1 : 2048 - 1 = 2 * 1023 + 1 := by norm_num
    rw [h1, take_bytes_replicate_e_odd 1023 1024 (by omega)]
    rfl
  rw [htake]

/-- C9: the error presenter maps every error kind to its fixed exit code
(`usage`=2, `auth`=3, `rate_limit`=4, `upstream`=5, `api`=6, `internal`=1);
the JSON envelope's `retryable` field is `true` for the upstream category
and `false` for every other one; the envelope always carries the category
and the message, the status when known (`auth`/`api` carry their status,
`rate_limit` carries 429, `upstream` carries its optional status), and for
rate-limit errors the retry-after hint in milliseconds. -/
theorem error_presenter_mapping :
    (∀ m, (AppError.usage m).exit_code = 2)
    ∧ (∀ s m, (AppError.auth s m).exit_code = 3)
    ∧ (∀ m r, (AppError.rate_limited m r).exit_code = 4)
    ∧ (∀ s m, (AppError.upstream s m).exit_code = 5)
    ∧ (∀ s m, (AppError.api s m).exit_code = 6)
    ∧ (∀ m, (AppError.internal m).exit_code = 1)
    ∧ (∀ m, error_field (AppError.usage m) "retryable" = some (JsonValue.bool false))
    ∧ (∀ s m, error_field (AppError.auth s m) "retryable" = some (JsonValue.bool false))
    ∧ (∀ m r, error_field (AppError.rate_limited m r) "retryable" =
        some (JsonValue.bool false))
    ∧ (∀ s m, error_field (AppError.upstream s m) "retryable" = some (JsonValue.bool true))
    ∧ (∀ s m, error_field (AppError.api s m) "retryable" = some (JsonValue.bool false))
    ∧ (∀ m, error_field (AppError.internal m) "retryable" = some (JsonValue.bool false))
    ∧ (∀ m, error_field (AppError.usage m) "category" = some (JsonValue.str "usage")
        ∧ error_field (AppError.usage m) "message" = some (JsonValue.str m))
    ∧ (∀ s m, error_field (AppError.auth s m) "category" = some (JsonValue.str "auth")
        ∧ error_field (AppError.auth s m) "message" = some (JsonValue.str m)
        ∧ error_field (AppError.auth s m) "status" = some (JsonValue.num s))
    ∧ (∀ m r, error_field (AppError.rate_limited m r) "category" =
          some (JsonValue.str "rate_limit")
        ∧ error_field (AppError.rate_limited m r) "message" = some (JsonValue.str m)
        ∧ error_field (AppError.rate_limited m r) "status" = some (JsonValue.num 429)
        ∧ error_field (AppError.rate_limited m r) "retry_after_ms" = some (json_opt_nat r))
    ∧ (∀ s m, error_field (AppError.upstream s m) "category" =
          some (JsonValue.str "upstream")
        ∧ error_field (AppError.upstream s m) "message" = some (JsonValue.str m)
        ∧ error_field (AppError.upstream s m) "status" = some (json_opt_nat s))
    ∧ (∀ s m, error_field (AppError.api s m) "category" = some (JsonValue.str "api")
        ∧ error_field (AppError.api s m) "message" = some (JsonValue.str m)
        ∧ error_field (AppError.api s m) "status" = some (JsonValue.num s))
    ∧ (∀ m, error_field (AppError.internal m) "category" =
          some (JsonValue.str "internal")
        ∧ error_field (AppError.internal m) "message" = some (JsonValue.str m)) :=
  ⟨fun _ => rfl, fun _ _ => rfl, fun _ _ => rfl, fun _ _ => rfl, fun _ _ => rfl,
    fun _ => rfl, fun _ => rfl, fun _ _ => rfl, fun _ _ => rfl, fun _ _ => rfl,
    fun _ _ => rfl, fun _ => rfl, fun _ => ⟨rfl, rfl⟩, fun _ _ => ⟨rfl, rfl, rfl⟩,
    fun _ _ => ⟨rfl, rfl, rfl, rfl⟩, fun _ _ => ⟨rfl, rfl, rfl⟩,
    fun _ _ => ⟨rfl, rfl, rfl⟩, fun _ => ⟨rfl, rfl⟩⟩

/-- C2: a 401 or 403 response terminates the retry loop immediately with an
`Auth` error carrying the status and the (truncated) body — one transport
invocation, no retry, no backoff sleep — for every retry policy, including
`max_retries > 0` and `retry_on_rate_limit = true`. Authentication is
classified before the rate-limit, retryable-status and generic `Api`
checks, which is unobservable beyond this theorem because the status
ranges of the four checks are mutually exclusive. -/
theorem auth_never_retried (retry : RetryConfig) (parse : String → Option JsonValue)
    (resp : Nat → TryResult) (attempt st : Nat) (hdr : Option String) (text body : String)
    (hst : st = 401 ∨ st = 403)
    (hresp : resp attempt = TryResult.response st hdr (BodyOutcome.ok text))
    (htrunc : truncate_for_error text = some body) :
    send_loop retry parse resp attempt =
      { result := some (Except.error (DatadogError.auth st body)),
        sleeps := [], tries := 1 } := by
  rw [send_loop, hresp]
  rcases hst with h | h <;> subst h
  · have h1 : is_success 401 = false := by decide
    simp [h1, htrunc]
  · have h1 : is_success 403 = false := by decide
    simp [h1, htrunc]

/-- Witness for `auth_never_retried`: a 401 with remaining retry budget
(`max_retries = 5`, `retry_on_rate_limit = true`) still terminates at once. -/
theorem auth_never_retried_witness :
    ((401 : Nat) = 401 ∨ (401 : Nat) = 403)
    ∧ (fun _ : Nat => TryResult.response 401 none (BodyOutcome.ok "denied")) 0 =
        TryResult.response 401 none (BodyOutcome.ok "denied")
    ∧ truncate_for_error "denied" = some "denied"
    ∧ send_loop (RetryConfig.mk 5 100 1000 true) (fun _ => none)
        (fun _ => TryResult.response 401 none (BodyOutcome.ok "denied")) 0 =
        { result := some (Except.error (DatadogError.auth 401 "denied")),
          sleeps := [], tries := 1 } :=
  ⟨Or.inl rfl, rfl, by decide,
    auth_never_retried (RetryConfig.mk 5 100 1000 true) (fun _ => none)
      (fun _ => TryResult.response 401 none (BodyOutcome.ok "denied")) 0 401 none
      "denied" "denied" (Or.inl rfl) rfl (by decide)⟩

/-- C1: on an HTTP 429 response the request is retried if and only if
`retry_on_rate_limit` is true and the 0-based attempt count is strictly
below `max_retries`; when retried, the sleep delay is the `Retry-After`
header interpreted as seconds and converted to milliseconds when it parses
as a non-negative integer, and the computed exponential backoff otherwise
(a non-integer `Retry-After` such as an HTTP-date parses to `none` and is
silently ignored); when not retried — including `retry_on_rate_limit =
false` on the first attempt with `max_retries > 0` — the outcome is the
terminal `RateLimited` error carrying the (truncated) body and the parsed
retry-after milliseconds if any. `Retry-After: 2` yields a 2000 ms delay. -/
theorem retry_429_policy (retry : RetryConfig) (parse : String → Option JsonValue)
    (resp : Nat → TryResult) (attempt : Nat) (hdr : Option String) (text body : String)
    (hresp : resp attempt = TryResult.response 429 hdr (BodyOutcome.ok text))
    (htrunc : truncate_for_error text = some body) :
    (send_loop retry parse resp attempt =
      (if retry.retry_rate_limit = true ∧ attempt < retry.max_retries then
        add_try ((parse_retry_after_ms hdr).getD (backoff_ms retry attempt))
          (send_loop retry parse resp (attempt + 1))
      else
        { result := some (Except.error (DatadogError.rate_limited body
            (parse_retry_after_ms hdr))),
          sleeps := [], tries := 1 }))
    ∧ parse_retry_after_ms (some "2") = some 2000
    ∧ parse_retry_after_ms (some "Wed, 21 Oct 2015 07:28:00 GMT") = none := by
  refine ⟨?_, by decide, by decide⟩
  rw [send_loop, hresp]
  have h1 : is_success 429 = false := by decide
  simp only [h1, htrunc, Bool.false_eq_true, if_false]
  by_cases hp : retry.retry_rate_limit = true ∧ attempt < retry.max_retries
  · simp [hp]
  · simp [hp]

/-- Witness for `retry_429_policy`: `retry_on_rate_limit = false` with
`max_retries = 2 > 0` on the first attempt terminates as `RateLimited`
with the parsed 2000 ms retry-after hint attached. -/
theorem retry_429_policy_witness :
    (fun _ : Nat => TryResult.response 429 (some "2") (BodyOutcome.ok "slow down")) 0 =
        TryResult.response 429 (some "2") (BodyOutcome.ok "slow down")
    ∧ truncate_for_error "slow down" = some "slow down"
    ∧ ((send_loop (RetryConfig.mk 2 100 1000 false) (fun _ => none)
        (fun _ => TryResult.response 429 (some "2") (BodyOutcome.ok "slow down")) 0 =
        (if (RetryConfig.mk 2 100 1000 false).retry_rate_limit = true ∧
            0 < (RetryConfig.mk 2 100 1000 false).max_retries then
          add_try ((parse_retry_after_ms (some "2")).getD
              (backoff_ms (RetryConfig.mk 2 100 1000 false) 0))
            (send_loop (RetryConfig.mk 2 100 1000 false) (fun _ => none)
              (fun _ => TryResult.response 429 (some "2") (BodyOutcome.ok "slow down")) 1)
        else
          { result := some (Except.error (DatadogError.rate_limited "slow down"
              (parse_retry_after_ms (some "2")))),
            sleeps := [], tries := 1 }))
      ∧ parse_retry_after_ms (some "2") = some 2000
      ∧ parse_retry_after_ms (some "Wed, 21 Oct 2015 07:28:00 GMT") = none) :=
  ⟨rfl, by decide,
    retry_429_policy (RetryConfig.mk 2 100 1000 false) (fun _ => none)
      (fun _ => TryResult.response 429 (some "2") (BodyOutcome.ok "slow down")) 0
      (some "2") "slow down" "slow down" rfl (by decide)⟩

/-- C5: a 2xx response always yields `Success` in one transport invocation
with no sleeps: the empty JSON object for a body that is blank after
trimming, the parsed JSON value when the body parses, and the wrapper
object `{"raw": <body text>}` when it does not parse — never an error
outcome due to payload contents. -/
theorem success_decoding (retry : RetryConfig) (parse : String → Option JsonValue)
    (resp : Nat → TryResult) (attempt st : Nat) (hdr : Option String) (text : String)
    (hresp : resp attempt = TryResult.response st hdr (BodyOutcome.ok text))
    (hs : is_success st = true) :
    send_loop retry parse resp attempt =
      { result := some (Except.ok
          (if (rust_trim text).isEmpty then JsonValue.obj []
           else match parse text with
             | some value => value
             | none => JsonValue.obj [("raw", JsonValue.str text)])),
        sleeps := [], tries := 1 } := by
  rw [send_loop, hresp]
  simp only [hs, if_true]
  by_cases he : (rust_trim text).isEmpty
  · simp [he]
  · simp only [he, if_false, Bool.false_eq_true]
    cases hp : parse text <;> simp [hp, he]

/-- Witness for `success_decoding`: a 200 response with the non-JSON body
`not json` (under a parser that rejects it) decodes to the raw wrapper. -/
theorem success_decoding_witness :
    (fun _ : Nat => TryResult.response 200 none (BodyOutcome.ok "not json")) 0 =
        TryResult.response 200 none (BodyOutcome.ok "not json")
    ∧ is_success 200 = true
    ∧ send_loop (RetryConfig.mk 3 100 1000 true) (fun _ => none)
        (fun _ => TryResult.response 200 none (BodyOutcome.ok "not json")) 0 =
        { result := some (Except.ok
            (if (rust_trim "not json").isEmpty then JsonValue.obj []
             else match (fun _ : String => (none : Option JsonValue)) "not json" with
               | some value => value
               | none => JsonValue.obj [("raw", JsonValue.str "not json")])),
          sleeps := [], tries := 1 } :=
  ⟨rfl, by decide,
    success_decoding (RetryConfig.mk 3 100 1000 true) (fun _ => none)
      (fun _ => TryResult.response 200 none (BodyOutcome.ok "not json")) 0 200 none
      "not json" rfl (by decide)⟩

/-- Every execution of the retry loop started at an attempt index within
budget consumes at most `max_retries + 1 - attempt` transport invocations
(so at most `max_retries + 1` total tries from attempt 0). -/
theorem send_loop_tries_le (retry : RetryConfig) (parse : String → Option JsonValue)
    (resp : Nat → TryResult) :
    ∀ attempt, attempt ≤ retry.max_retries →
      (send_loop retry parse resp attempt).tries ≤ retry.max_retries + 1 - attempt := by
  intro attempt
  induction attempt using send_loop.induct retry parse resp with
  | case1 x r msg hres hc ih =>
    intro hx
    have h2 := ih (by omega)
    rw [send_loop, hres]
    simp [hc, add_try]
    omega
  | case2 x msg hres hc =>
    intro hx
    have hlt : ¬ x < retry.max_retries := fun h => hc ⟨rfl, h⟩
    rw [send_loop, hres]
    simp [hlt]
    omega
  | case3 x r msg hres hc hr =>
    intro hx
    rw [send_loop, hres]
    simp [hc, hr]
    omega
  | case4 x status hdr msg hc hres ih =>
    intro hx
    have h2 := ih (by omega)
    rw [send_loop, hres]
    simp [hc, add_try]
    omega
  | case5 x status hdr msg hc hres =>
    intro hx
    rw [send_loop, hres]
    simp [hc]
    omega
  | case6 x status hdr text hs he hres =>
    intro hx
    rw [send_loop, hres]
    simp [hs, he]
    omega
  | case7 x status hdr text hs he value hp hres =>
    intro hx
    rw [send_loop, hres]
    simp [hs, he, hp]
    omega
  | case8 x status hdr text hs he hp hres =>
    intro hx
    rw [send_loop, hres]
    simp [hs, he, hp]
    omega
  | case9 x status hdr text hs ht hres =>
    intro hx
    rw [send_loop, hres]
    simp [hs, ht]
    omega
  | case10 x status hdr text hs value ht hauth hres =>
    intro hx
    rw [send_loop, hres]
    simp [hs, ht, hauth]
    omega
  | case11 x hdr text value ht hc hs hauth hres ih =>
    intro hx
    have h2 := ih (by omega)
    rw [send_loop, hres]
    simp [hs, ht, hauth, hc, add_try]
    omega
  | case12 x hdr text value ht hc hs hauth hres =>
    intro hx
    rw [send_loop, hres]
    simp [hs, ht, hauth, hc]
    omega
  | case13 x status hdr text hs value ht hauth h429 hretry hc hres ih =>
    intro hx
    have h2 := ih (by omega)
    rw [send_loop, hres]
    simp [hs, ht, hauth, h429, hretry, hc, add_try]
    omega
  | case14 x status hdr text hs value ht hauth h429 hretry hc hres =>
    intro hx
    rw [send_loop, hres]
    simp [hs, ht, hauth, h429, hretry, hc]
    omega
  | case15 x status hdr text hs value ht hauth h429 hretry hres =>
    intro hx
    rw [send_loop, hres]
    simp [hs, ht, hauth, h429, hretry]
    omega

/-- When every transport invocation yields the same retryable status with
the same body, the loop retries until the budget is exhausted and ends in
the `Retryable` terminal error whose message states `max_retries + 1`
total attempts. -/
theorem send_loop_exhaust (retry : RetryConfig) (parse : String → Option JsonValue)
    (resp : Nat → TryResult) (st : Nat) (text body : String)
    (hst : is_retryable_status st = true)
    (hresp : ∀ i, resp i = TryResult.response st none (BodyOutcome.ok text))
    (htrunc : truncate_for_error text = some body) :
    ∀ attempt, attempt ≤ retry.max_retries →
      (send_loop retry parse resp attempt).result =
        some (Except.error (DatadogError.retryable (some st)
          ("Datadog API returned " ++ toString st ++ " after " ++
            toString (retry.max_retries + 1) ++ " attempt(s): " ++ body)))
      ∧ (send_loop retry parse resp attempt).tries = retry.max_retries + 1 - attempt := by
  have hrange : st = 408 ∨ (500 ≤ st ∧ st ≤ 599) := by
    simpa [is_retryable_status] using hst
  have hns : is_success st = false := by
    simp [is_success]; omega
  have hauth : ¬(st = 401 ∨ st = 403) := by omega
  have h429 : ¬ st = 429 := by omega
  have hterm : ∀ a, a = retry.max_retries →
      send_loop retry parse resp a =
        { result := some (Except.error (DatadogError.retryable (some st)
            ("Datadog API returned " ++ toString st ++ " after " ++
              toString (retry.max_retries + 1) ++ " attempt(s): " ++ body))),
          sleeps := [], tries := 1 } := by
    intro a ha
    subst ha
    rw [send_loop, hresp _]
    simp [hns, htrunc, hauth, h429, hst]
  have hstep : ∀ a, a < retry.max_retries →
      send_loop retry parse resp a =
        add_try (backoff_ms retry a) (send_loop retry parse resp (a + 1)) := by
    intro a ha
    rw [send_loop, hresp a]
    simp [hns, htrunc, hauth, h429, hst, ha]
  have main : ∀ fuel a, a ≤ retry.max_retries → retry.max_retries - a ≤ fuel →
      (send_loop retry parse resp a).result =
        some (Except.error (DatadogError.retryable (some st)
          ("Datadog API returned " ++ toString st ++ " after " ++
            toString (retry.max_retries + 1) ++ " attempt(s): " ++ body)))
      ∧ (send_loop retry parse resp a).tries = retry.max_retries + 1 - a := by
    intro fuel
    induction fuel with
    | zero =>
      intro a h1 h2
      have ha : a = retry.max_retries := by omega
      rw [hterm a ha]
      exact ⟨rfl, by simp; omega⟩
    | succ n ihf =>
      intro a h1 h2
      by_cases heq : a = retry.max_retries
      · rw [hterm a heq]
        exact ⟨rfl, by simp; omega⟩
      · have hlt : a < retry.max_retries := by omega
        obtain ⟨ih1, ih2⟩ := ihf (a + 1) (by omega) (by omega)
        rw [hstep a hlt]
        refine ⟨ih1, ?_⟩
        simp [add_try, ih2]
        omega
  intro attempt h
  exact main retry.max_retries attempt h (by omega)

/-- C4: the retry loop always terminates with exactly one outcome (it is a
total function of the transport trace), the 0-based attempt counter never
exceeds `max_retries` — at most `max_retries + 1` total transport
invocations from attempt 0 — and when every try yields the same retryable
status (HTTP 408 or 5xx, e.g. 503), the post-exhaustion outcome is the
`Retryable`/upstream error carrying the status and a message stating the
total attempt count `max_retries + 1`. -/
theorem attempts_bounded (retry : RetryConfig) (parse : String → Option JsonValue)
    (resp : Nat → TryResult) (st : Nat) (text body : String)
    (hst : is_retryable_status st = true)
    (hresp : ∀ i, resp i = TryResult.response st none (BodyOutcome.ok text))
    (htrunc : truncate_for_error text = some body) :
    (∀ (parse2 : String → Option JsonValue) (resp2 : Nat → TryResult) (attempt : Nat),
        attempt ≤ retry.max_retries →
        (send_loop retry parse2 resp2 attempt).tries ≤ retry.max_retries + 1 - attempt)
    ∧ (send_loop retry parse resp 0).result =
        some (Except.error (DatadogError.retryable (some st)
          ("Datadog API returned " ++ toString st ++ " after " ++
            toString (retry.max_retries + 1) ++ " attempt(s): " ++ body)))
    ∧ (send_loop retry parse resp 0).tries = retry.max_retries + 1 := by
  have hx := send_loop_exhaust retry parse resp st text body hst hresp htrunc 0
    (Nat.zero_le _)
  refine ⟨fun parse2 resp2 => send_loop_tries_le retry parse2 resp2, hx.1, ?_⟩
  rw [hx.2]
  omega

/-- Witness for `attempts_bounded`: every try returns 503 with body `oops`
under `max_retries = 2`, giving 3 total tries and the documented message. -/
theorem attempts_bounded_witness :
    is_retryable_status 503 = true
    ∧ (∀ i : Nat, (fun _ : Nat => TryResult.response 503 none (BodyOutcome.ok "oops")) i =
        TryResult.response 503 none (BodyOutcome.ok "oops"))
    ∧ truncate_for_error "oops" = some "oops"
    ∧ ((∀ (parse2 : String → Option JsonValue) (resp2 : Nat → TryResult) (attempt : Nat),
          attempt ≤ (RetryConfig.mk 2 100 1000 true).max_retries →
          (send_loop (RetryConfig.mk 2 100 1000 true) parse2 resp2 attempt).tries ≤
            (RetryConfig.mk 2 100 1000 true).max_retries + 1 - attempt)
      ∧ (send_loop (RetryConfig.mk 2 100 1000 true) (fun _ => none)
          (fun _ => TryResult.response 503 none (BodyOutcome.ok "oops")) 0).result =
          some (Except.error (DatadogError.retryable (some 503)
            ("Datadog API returned " ++ toString (503 : Nat) ++ " after " ++
              toString ((RetryConfig.mk 2 100 1000 true).max_retries + 1) ++
              " attempt(s): " ++ "oops")))
      ∧ (send_loop (RetryConfig.mk 2 100 1000 true) (fun _ => none)
          (fun _ => TryResult.response 503 none (BodyOutcome.ok "oops")) 0).tries =
          (RetryConfig.mk 2 100 1000 true).max_retries + 1) :=
  ⟨by decide, fun _ => rfl, by decide,
    attempts_bounded (RetryConfig.mk 2 100 1000 true) (fun _ => none)
      (fun _ => TryResult.response 503 none (BodyOutcome.ok "oops")) 503 "oops" "oops"
      (by decide) (fun _ => rfl) (by decide)⟩

/-- C7 counterexample: the claim says every sort value other than `asc` and
`desc` is rejected before any network call, but the code lowercases the
value first, so the distinct value `ASC` is accepted and one transport
invocation happens (for both the logs and the events operation). -/
theorem sort_case_insensitive_cex :
    ("ASC" ≠ "asc" ∧ "ASC" ≠ "desc")
    ∧ (query_logs client_w parse_none resp_ok_empty
        (LogsQuery.mk "q" "now-1h" "now" 10 "ASC" none)).tries = 1
    ∧ (query_events client_w parse_none resp_ok_empty none "now-1h" "now" 10 "ASC").tries
        = 1 := by
  refine ⟨⟨by decide, by decide⟩, ?_, ?_⟩
  · have h : ascii_lowercase "ASC" = "asc" := by decide
    rw [query_logs, h, send_json]
    rw [send_loop]
    decide
  · have h : ascii_lowercase "ASC" = "asc" := by decide
    rw [query_events, h, send_json]
    rw [send_loop]
    decide

/-- C7 (amended): for both the logs and the events operations, a sort value
whose ASCII-lowercase form is `asc` maps to `timestamp` and one whose
ASCII-lowercase form is `desc` maps to `-timestamp` (identically for both
subcommands, and case-insensitively); every sort value whose lowercase form
is neither yields an `InvalidRequest` usage error before any transport
invocation (zero tries). -/
theorem sort_mapping_normalized (c : ClientConfig) (parse : String → Option JsonValue)
    (resp : Nat → TryResult) (q : LogsQuery) (query : Option String)
    (from_ to_ : String) (limit : Nat) (sort : String) :
    (ascii_lowercase q.sort = "asc" →
      query_logs c parse resp q =
        send_json c parse resp "POST" "/api/v2/logs/events/search" none
          (some (logs_request_body q "timestamp")))
    ∧ (ascii_lowercase q.sort = "desc" →
      query_logs c parse resp q =
        send_json c parse resp "POST" "/api/v2/logs/events/search" none
          (some (logs_request_body q "-timestamp")))
    ∧ (ascii_lowercase q.sort ≠ "asc" → ascii_lowercase q.sort ≠ "desc" →
      query_logs c parse resp q =
        { result := some (Except.error (DatadogError.invalid_request
            ("Invalid sort `" ++ ascii_lowercase q.sort ++
              "`. Use `asc` or `desc` for logs queries."))),
          sleeps := [], tries := 0 })
    ∧ (ascii_lowercase sort = "asc" →
      query_events c parse resp query from_ to_ limit sort =
        send_json c parse resp "GET" "/api/v2/events"
          (some (events_params query from_ to_ limit "timestamp")) none)
    ∧ (ascii_lowercase sort = "desc" →
      query_events c parse resp query from_ to_ limit sort =
        send_json c parse resp "GET" "/api/v2/events"
          (some (events_params query from_ to_ limit "-timestamp")) none)
    ∧ (ascii_lowercase sort ≠ "asc" → ascii_lowercase sort ≠ "desc" →
      query_events c parse resp query from_ to_ limit sort =
        { result := some (Except.error (DatadogError.invalid_request
            ("Invalid sort `" ++ ascii_lowercase sort ++
              "`. Use `asc` or `desc` for events queries."))),
          sleeps := [], tries := 0 }) := by
  refine ⟨?_, ?_, ?_, ?_, ?_, ?_⟩
  · intro h
    rw [query_logs, h]
    rfl
  · intro h
    rw [query_logs, h]
    rfl
  · intro h1 h2
    rw [query_logs]
    split
    · simp_all
    · simp_all
    · rfl
  · intro h
    rw [query_events, h]
    rfl
  · intro h
    rw [query_events, h]
    rfl
  · intro h1 h2
    rw [query_events]
    split
    · simp_all
    · simp_all
    · rfl

/-- Witness for `sort_mapping_normalized`: the mixed-case value `AsC`
lowercases to `asc` and the logs body carries sort `timestamp`; the value
`sideways` is rejected for events with zero transport invocations. -/
theorem sort_mapping_normalized_witness :
    ascii_lowercase "AsC" = "asc"
    ∧ query_logs client_w parse_none resp_ok_empty
        (LogsQuery.mk "q" "now-1h" "now" 10 "AsC" none) =
        send_json client_w parse_none resp_ok_empty "POST" "/api/v2/logs/events/search"
          none (some (logs_request_body (LogsQuery.mk "q" "now-1h" "now" 10 "AsC" none)
            "timestamp"))
    ∧ query_events client_w parse_none resp_ok_empty none "now-1h" "now" 10 "sideways" =
        { result := some (Except.error (DatadogError.invalid_request
            ("Invalid sort `" ++ ascii_lowercase "sideways" ++
              "`. Use `asc` or `desc` for events queries."))),
          sleeps := [], tries := 0 } :=
  ⟨by decide,
    (sort_mapping_normalized client_w parse_none resp_ok_empty
      (LogsQuery.mk "q" "now-1h" "now" 10 "AsC" none) none "now-1h" "now" 10
      "sideways").1 (by decide),
    (sort_mapping_normalized client_w parse_none resp_ok_empty
      (LogsQuery.mk "q" "now-1h" "now" 10 "AsC" none) none "now-1h" "now" 10
      "sideways").2.2.2.2.2 (by decide) (by decide)⟩

/-- C8: a path starting with `http://` or `https://` is handed verbatim to
the URL parser, bypassing the base URL entirely; any other path is appended
to the base URL with a `/` inserted when missing; and when the resulting
string fails to parse as a URL, `send_json` returns `InvalidRequest` with
zero transport invocations and no sleeps — no retry. -/
theorem url_resolution (c : ClientConfig) (parse : String → Option JsonValue)
    (resp : Nat → TryResult) (method path : String)
    (params : Option (List (String × String))) (body : Option JsonValue) :
    (starts_with path "http://" = true ∨ starts_with path "https://" = true →
      resolve_url c.url_ok c.base_url path =
        (if c.url_ok path then Except.ok path else Except.error "Invalid raw URL."))
    ∧ (¬(starts_with path "http://" = true ∨ starts_with path "https://" = true) →
      resolve_url c.url_ok c.base_url path =
        (if c.url_ok (c.base_url ++ (if starts_with path "/" then path else "/" ++ path))
         then Except.ok
            (c.base_url ++ (if starts_with path "/" then path else "/" ++ path))
         else Except.error ("Invalid Datadog URL built from `" ++
            (c.base_url ++ (if starts_with path "/" then path else "/" ++ path)) ++ "`")))
    ∧ (∀ e, resolve_url c.url_ok c.base_url path = Except.error e →
      send_json c parse resp method path params body =
        { result := some (Except.error (DatadogError.invalid_request e)),
          sleeps := [], tries := 0 }) := by
  refine ⟨?_, ?_, ?_⟩
  · intro h
    have hc : (starts_with path "http://" || starts_with path "https://") = true := by
      rcases h with h | h <;> simp [h]
    rw [resolve_url, if_pos hc]
  · intro h
    have hc : ¬((starts_with path "http://" || starts_with path "https://") = true) := by
      simp only [Bool.or_eq_true]
      exact h
    rw [resolve_url, if_neg hc]
  · intro e he
    rw [send_json, he]

/-- Witness for `url_resolution`: an absolute URL is used verbatim, and a
client whose URL parser rejects everything gets `InvalidRequest` with zero
tries for the relative path `/x`. -/
theorem url_resolution_witness :
    (starts_with "http://dd.example/api" "http://" = true ∨
      starts_with "http://dd.example/api" "https://" = true)
    ∧ resolve_url client_w.url_ok client_w.base_url "http://dd.example/api" =
        (if client_w.url_ok "http://dd.example/api" then Except.ok "http://dd.example/api"
         else Except.error "Invalid raw URL.")
    ∧ resolve_url client_bad.url_ok client_bad.base_url "/x" =
        Except.error "Invalid Datadog URL built from `https://api.datadoghq.com/x`"
    ∧ send_json client_bad parse_none resp_ok_empty "GET" "/x" none none =
        { result := some (Except.error (DatadogError.invalid_request
            "Invalid Datadog URL built from `https://api.datadoghq.com/x`")),
          sleeps := [], tries := 0 } :=
  ⟨Or.inl (by decide),
    (url_resolution client_w parse_none resp_ok_empty "GET" "http://dd.example/api"
      none none).1 (Or.inl (by decide)),
    rfl,
    (url_resolution client_bad parse_none resp_ok_empty "GET" "/x" none none).2.2
      "Invalid Datadog URL built from `https://api.datadoghq.com/x`" rfl⟩

/-- C10: in the metrics arm, once both time expressions are resolved to
unix seconds, a window with `to_unix ≤ from_unix` is rejected as the usage
error "`to` must be greater than `from`" before any request is built or any
transport invocation happens (zero tries); the metrics query is executed
only when `to_unix > from_unix`. -/
theorem metrics_window_guard (c : ClientConfig) (parse : String → Option JsonValue)
    (resp : Nat → TryResult) (query : String) (from_unix to_unix : Int) :
    (to_unix ≤ from_unix →
      run_metrics c parse resp query from_unix to_unix =
        { result := some (Except.error (AppError.usage
            "Invalid metrics time window: `to` must be greater than `from`.")),
          sleeps := [], tries := 0 })
    ∧ (from_unix < to_unix →
      run_metrics c parse resp query from_unix to_unix =
        lift_app (query_metrics c parse resp query from_unix to_unix)) := by
  constructor
  · intro h
    rw [run_metrics, if_pos h]
  · intro h
    rw [run_metrics, if_neg (by omega)]

/-- Witness for `metrics_window_guard`: `from = 5, to = 3` is rejected as a
usage error with zero transport invocations. -/
theorem metrics_window_guard_witness :
    ((3 : Int) ≤ 5)
    ∧ run_metrics client_w parse_none resp_ok_empty "avg:system.load" 5 3 =
        { result := some (Except.error (AppError.usage
            "Invalid metrics time window: `to` must be greater than `from`.")),
          sleeps := [], tries := 0 } :=
  ⟨by decide,
    (metrics_window_guard client_w parse_none resp_ok_empty "avg:system.load" 5 3).1
      (by decide)⟩
